import Mathlib

/-!
Verification of the Recurring Task Lifecycle Engine and Filtered Task Query
Layer of the todo-app backend (src/backend/src): a shallow embedding of
`models/task.py`, `schemas/task.py`, `repository/task_repository.py`,
`service/task_service.py` and the `complete` endpoint of `api/tasks.py`,
together with theorems settling the specification claims.

Timestamps are modelled at microsecond precision, as Python `datetime`
values (year, month, day, microsecond-of-day), all in one reference
timezone (UTC); Python compares datetimes lexicographically on these
components, which for valid values coincides with comparing `DateTime.key`.
-/

namespace TodoApp

/-- Calendar date (year, month, day), mirroring Python `datetime.date`
as used for `recurrence_end_date`. -/
structure Date where
  year : Nat
  month : Nat
  day : Nat
deriving DecidableEq, Repr

/-- Timestamp at microsecond precision, mirroring Python `datetime.datetime`:
a calendar day plus the microsecond of that day (`usec < 86400000000`). -/
structure DateTime where
  year : Nat
  month : Nat
  day : Nat
  usec : Nat
deriving DecidableEq, Repr

/-- Microseconds in one day. -/
def usecPerDay : Nat := 86400000000

/-- Microsecond-of-day of Python `datetime.max.time()`, i.e. 23:59:59.999999. -/
def lastUsecOfDay : Nat := 86399999999

/-- Injective monotone key: for valid datetimes (month ≤ 12 < 16, day ≤ 31 < 32,
usec < 86400000000 < 10^11) Nat-comparison of keys coincides with Python's
lexicographic datetime comparison. -/
def DateTime.key (d : DateTime) : Nat :=
  ((d.year * 16 + d.month) * 32 + d.day) * 100000000000 + d.usec

/-- Gregorian leap-year test, as in Python `calendar.isleap`. -/
def isLeapYear (y : Nat) : Bool :=
  y % 4 == 0 && (y % 100 != 0 || y % 400 == 0)

/-- Number of days of month `m` of year `y`, as returned by Python
`calendar.monthrange(y, m)` in its second component. -/
def daysInMonth (y m : Nat) : Nat :=
  if m == 2 then (if isLeapYear y then 29 else 28)
  else if m == 4 || m == 6 || m == 9 || m == 11 then 30
  else 31

/-- Validity of a datetime value. -/
def DateTime.valid (d : DateTime) : Prop :=
  1 ≤ d.month ∧ d.month ≤ 12 ∧ 1 ≤ d.day ∧ d.day ≤ daysInMonth d.year d.month ∧
    d.usec < usecPerDay

/-- The instant `datetime.combine(d, datetime.max.time())`: the last
representable microsecond (23:59:59.999999) of calendar day `d`. -/
def endOfDay (d : Date) : DateTime :=
  ⟨d.year, d.month, d.day, lastUsecOfDay⟩

/-- Recurrence frequency, from `models/task.py` (`RecurrencePattern`). -/
inductive RecurrencePattern
  | daily
  | weekly
  | monthly
deriving DecidableEq, Repr

/-- Priority levels, from `models/task.py` (`TaskPriority`). -/
inductive TaskPriority
  | high
  | medium
  | low
deriving DecidableEq, Repr

/-- Position of a priority member in the native PostgreSQL enum type
`taskpriority`, declared `('HIGH', 'MEDIUM', 'LOW')` by migration
b2392c4bb046; ORDER BY on a native enum column compares values by this
declaration order, not by the member names. -/
def priorityEnumIndex : TaskPriority → Nat
  | .high => 0
  | .medium => 1
  | .low => 2

/-- Task row, from `models/task.py`; defaults are the model's column
defaults (`id` is assigned by the store on insert). -/
structure Task where
  id : Nat
  user_id : String
  title : String
  description : String := ""
  completed : Bool := false
  created_at : DateTime
  updated_at : Option DateTime := none
  priority : TaskPriority := .medium
  tags : List String := []
  due_date : Option DateTime := none
  notification_sent : Bool := false
  is_recurring : Bool := false
  recurrence_pattern : Option RecurrencePattern := none
  recurrence_end_date : Option Date := none
  parent_task_id : Option Nat := none
deriving DecidableEq, Repr

/-- Advance one calendar day (what `timedelta(days=1)` does to a UTC
datetime), preserving the time of day. -/
def DateTime.addDay (dt : DateTime) : DateTime :=
  if dt.day < daysInMonth dt.year dt.month then
    { dt with day := dt.day + 1 }
  else if dt.month < 12 then
    { dt with month := dt.month + 1, day := 1 }
  else
    { year := dt.year + 1, month := 1, day := 1, usec := dt.usec }

/-- Advance `n` calendar days. -/
def DateTime.addDays (dt : DateTime) : Nat → DateTime
  | 0 => dt
  | n + 1 => (dt.addDays n).addDay

/-- TaskService.calculate_next_due_date (task_service.py lines 193-249):
DAILY adds one day, WEEKLY adds seven, MONTHLY advances to the next
calendar month with the day clamped by `min current_day last_day`, keeping
the time of day (`current_due_date.replace(...)`). -/
def TaskService.calculate_next_due_date (current_due_date : DateTime)
    (pattern : RecurrencePattern) : DateTime :=
  match pattern with
  | .daily => current_due_date.addDay
  | .weekly => current_due_date.addDays 7
  | .monthly =>
    if current_due_date.month + 1 > 12 then
      { year := current_due_date.year + 1, month := 1,
        day := min current_due_date.day (daysInMonth (current_due_date.year + 1) 1),
        usec := current_due_date.usec }
    else
      { year := current_due_date.year, month := current_due_date.month + 1,
        day := min current_due_date.day
          (daysInMonth current_due_date.year (current_due_date.month + 1)),
        usec := current_due_date.usec }

/-- TaskService.should_generate_next_instance (task_service.py lines
251-280): true when there is no `recurrence_end_date`; otherwise compares
`next_due_date <= datetime.combine(end_date, datetime.max.time())`. -/
def TaskService.should_generate_next_instance (task : Task)
    (next_due_date : DateTime) : Bool :=
  match task.recurrence_end_date with
  | none => true
  | some d => decide (next_due_date.key ≤ (endOfDay d).key)

/-- Creation payload, from `schemas/task.py` (`TaskCreate`), with the
schema's field defaults. -/
structure TaskCreate where
  title : String
  description : String := ""
  priority : TaskPriority := .medium
  tags : List String := []
  due_date : Option DateTime := none
  is_recurring : Bool := false
  recurrence_pattern : Option RecurrencePattern := none
  recurrence_end_date : Option Date := none
  parent_task_id : Option Nat := none
deriving DecidableEq, Repr

/-- TaskCreate.validate_recurrence (schemas/task.py lines 126-138) as a
predicate: the model validator accepts the draft iff this is true (it
raises when `is_recurring` is set without `recurrence_pattern` or without
`due_date`). -/
def TaskCreate.validate_recurrence (d : TaskCreate) : Bool :=
  !d.is_recurring || (d.recurrence_pattern.isSome && d.due_date.isSome)

/-- Partial-update payload, from `schemas/task.py` (`TaskUpdate`); every
field is optional. -/
structure TaskUpdate where
  title : Option String := none
  description : Option String := none
  priority : Option TaskPriority := none
  tags : Option (List String) := none
  due_date : Option DateTime := none
  is_recurring : Option Bool := none
  recurrence_pattern : Option RecurrencePattern := none
  recurrence_end_date : Option Date := none
deriving DecidableEq, Repr

/-- Python `str.strip()`: remove leading and trailing whitespace. -/
def pyStrip (s : String) : String :=
  ⟨((s.data.dropWhile Char.isWhitespace).reverse.dropWhile
    Char.isWhitespace).reverse⟩

/-- The task store: the rows of the `tasks` table. -/
abbrev Store := List Task

/-- TaskRepository.get_by_id (task_repository.py lines 82-102): the row
with the given id, only if owned by the authenticated user. -/
def TaskRepository.get_by_id (store : Store) (user_id : String)
    (task_id : Nat) : Option Task :=
  store.find? (fun t => t.id == task_id && t.user_id == user_id)

/-- Fresh primary key assigned by the store on insert. -/
def freshId (store : Store) : Nat :=
  store.foldr (fun t m => max t.id m) 0 + 1

/-- In-place mutation of a fetched row followed by a flush: the row with
the given id and owner is replaced, every other row is untouched. -/
def replaceRow (store : Store) (user_id : String) (task_id : Nat)
    (t' : Task) : Store :=
  store.map (fun u => if u.id == task_id && u.user_id == user_id then t' else u)

/-- TaskRepository.create (task_repository.py lines 34-55): inserts a row
built from `user_id`, stripped `title` and `description`, `priority`,
`due_date` and `tags` of the draft; every other column takes the model
default (in particular `is_recurring`, `recurrence_pattern`,
`recurrence_end_date` and `parent_task_id` of the draft are not
persisted). Returns the new store and the created row. -/
def TaskRepository.create (store : Store) (user_id : String)
    (task_data : TaskCreate) (now : DateTime) : Store × Task :=
  let t : Task :=
    { id := freshId store
      user_id := user_id
      title := pyStrip task_data.title
      description := pyStrip task_data.description
      priority := task_data.priority
      due_date := task_data.due_date
      tags := task_data.tags
      created_at := now }
  (store ++ [t], t)

/-- TaskRepository.update (task_repository.py lines 104-149): partial
update of title/description/priority/due_date/tags on the owned row, with
`notification_sent` reset when the due date changes and `updated_at`
stamped; recurrence fields of the patch are never applied, and a field
whose patch value is None is left unchanged. -/
def TaskRepository.update (store : Store) (user_id : String) (task_id : Nat)
    (task_data : TaskUpdate) (now : DateTime) : Store × Option Task :=
  match TaskRepository.get_by_id store user_id task_id with
  | none => (store, none)
  | some task =>
    let t1 := match task_data.title with
      | some s => { task with title := pyStrip s }
      | none => task
    let t2 := match task_data.description with
      | some s => { t1 with description := pyStrip s }
      | none => t1
    let t3 := match task_data.priority with
      | some p => { t2 with priority := p }
      | none => t2
    let t4 := match task_data.due_date with
      | some d =>
        if t3.due_date ≠ some d then
          { t3 with notification_sent := false, due_date := some d }
        else
          { t3 with due_date := some d }
      | none => t3
    let t5 := match task_data.tags with
      | some tg => { t4 with tags := tg }
      | none => t4
    let t6 := { t5 with updated_at := some now }
    (replaceRow store user_id task_id t6, some t6)

/-- TaskRepository.toggle (task_repository.py lines 171-193): flips the
`completed` flag of the owned row and stamps `updated_at`; nothing else
changes and no row is created. `TaskService.toggle_task` delegates here
unchanged. -/
def TaskRepository.toggle (store : Store) (user_id : String) (task_id : Nat)
    (now : DateTime) : Store × Option Task :=
  match TaskRepository.get_by_id store user_id task_id with
  | none => (store, none)
  | some task =>
    let t' := { task with completed := !task.completed, updated_at := some now }
    (replaceRow store user_id task_id t', some t')

/-- TaskService.complete_task (task_service.py lines 282-343): loads the
owned row (returning (store, none, none) when absent), unconditionally
marks it completed and stamps `updated_at`, and — when the row is
recurring with a pattern and a due date — computes the next due date,
checks `should_generate_next_instance`, and persists the next occurrence
draft through `TaskRepository.create`. There is no already-completed
early return in the source. -/
def TaskService.complete_task (store : Store) (user_id : String)
    (task_id : Nat) (now : DateTime) : Store × Option Task × Option Task :=
  match TaskRepository.get_by_id store user_id task_id with
  | none => (store, none, none)
  | some task =>
    let task1 : Task := { task with completed := true, updated_at := some now }
    let store1 := replaceRow store user_id task_id task1
    match task1.due_date, task1.recurrence_pattern with
    | some dd, some pat =>
      if task1.is_recurring then
        if TaskService.should_generate_next_instance task1
            (TaskService.calculate_next_due_date dd pat) then
          let next_instance_data : TaskCreate :=
            { title := task1.title
              description := task1.description
              priority := task1.priority
              tags := task1.tags
              due_date := some (TaskService.calculate_next_due_date dd pat)
              is_recurring := task1.is_recurring
              recurrence_pattern := task1.recurrence_pattern
              recurrence_end_date := task1.recurrence_end_date
              parent_task_id := some task.id }
          let r := TaskRepository.create store1 user_id next_instance_data now
          (r.1, some task1, some r.2)
        else
          (store1, some task1, none)
      else
        (store1, some task1, none)
    | _, _ => (store1, some task1, none)

/-- Errors surfaced by the API layer. -/
inductive ApiError
  | notFound
deriving DecidableEq, Repr

/-- The POST /{task_id}/complete endpoint (api/tasks.py lines 257-290):
runs `TaskService.complete_task` and raises 404 Not Found when the
returned completed task is None; otherwise answers with the completed
task and the optional next instance. -/
def ApiTasks.complete_task (store : Store) (user_id : String) (task_id : Nat)
    (now : DateTime) : Store × Except ApiError (Task × Option Task) :=
  match TaskService.complete_task store user_id task_id now with
  | (store', none, _) => (store', Except.error ApiError.notFound)
  | (store', some t, next) => (store', Except.ok (t, next))

/-- The invariant of §3 of the spec: a recurring task always has a due
date and a recurrence pattern. -/
def recurrenceInvariant (t : Task) : Prop :=
  t.is_recurring = true → t.due_date ≠ none ∧ t.recurrence_pattern ≠ none

instance (t : Task) : Decidable (recurrenceInvariant t) := by
  unfold recurrenceInvariant; infer_instance

/-- A concrete recurring task used as failing input for C1 and C2. -/
def recurTask : Task :=
  { id := 1, user_id := "u", title := "standup", created_at := ⟨2026, 1, 1, 0⟩,
    due_date := some ⟨2026, 1, 10, 32400000000⟩, is_recurring := true,
    recurrence_pattern := some .daily }

/-- The same task after it has already been completed once. -/
def recurTaskDone : Task :=
  { recurTask with completed := true, updated_at := some ⟨2026, 1, 2, 0⟩ }

/-- Lower-case a string character by character (Python/SQL lower). -/
def strLower (s : String) : String :=
  ⟨s.data.map Char.toLower⟩

/-- Contiguous-sublist test: does `needle` occur inside the list? -/
def containsSub {α : Type} [BEq α] (needle : List α) : List α → Bool
  | [] => needle.isEmpty
  | a :: l => needle.isPrefixOf (a :: l) || containsSub needle l

/-- Case-insensitive substring test, modelling `column ILIKE '%term%'`
for a term without wildcard characters. -/
def ilike (term s : String) : Bool :=
  containsSub (strLower term).data (strLower s).data

/-- The filter predicate compiled by TaskRepository.get_all_with_filters
(task_repository.py lines 231-282): owner scoping plus the optional
search/completed/priority/tags/due-window/overdue conditions, all ANDed.
Falsy values (`None`, empty string, empty list) disable their filter, as
the source's `if search:` / `if priority:` / `if tags:` tests do; SQL
comparisons against a NULL `due_date` do not match the row. -/
def matchesFilters (user_id : String) (search : Option String)
    (completed : Option Bool) (priority : Option (List TaskPriority))
    (tags : Option (List String)) (due_date_from due_date_to : Option DateTime)
    (is_overdue : Option Bool) (now : DateTime) (t : Task) : Bool :=
  (t.user_id == user_id) &&
  (match search with
   | some s => if s == "" then true else (ilike s t.title || ilike s t.description)
   | none => true) &&
  (match completed with
   | some c => t.completed == c
   | none => true) &&
  (match priority with
   | some ps => if ps.isEmpty then true else ps.contains t.priority
   | none => true) &&
  (match tags with
   | some tg => if tg.isEmpty then true else t.tags.any (fun x => tg.contains x)
   | none => true) &&
  (match due_date_from with
   | some f => (match t.due_date with
     | some d => decide (f.key ≤ d.key)
     | none => false)
   | none => true) &&
  (match due_date_to with
   | some hi => (match t.due_date with
     | some d => decide (d.key ≤ hi.key)
     | none => false)
   | none => true) &&
  (match is_overdue with
   | some true =>
     (match t.due_date with
       | some d => decide (d.key < now.key)
       | none => false) && !t.completed
   | some false =>
     (match t.due_date with
       | some d => decide (now.key ≤ d.key)
       | none => false) || t.due_date.isNone || t.completed
   | none => true)

/-- Lexicographic less-or-equal on character lists (the ordering the
store applies to its text columns). -/
def listLexLe : List Char → List Char → Bool
  | [], _ => true
  | _ :: _, [] => false
  | a :: s, b :: t =>
    if a < b then true
    else if b < a then false
    else listLexLe s t

/-- Lexicographic less-or-equal on strings. -/
def strLe (s t : String) : Bool :=
  listLexLe s.data t.data

/-- Insert into a list so that the given boolean relation is respected. -/
def insertLe {α : Type} (le : α → α → Bool) (a : α) : List α → List α
  | [] => [a]
  | b :: l => if le a b then a :: b :: l else b :: insertLe le a l

/-- Sort by the given boolean relation (the store's ORDER BY). -/
def insertionSortLe {α : Type} (le : α → α → Bool) : List α → List α
  | [] => []
  | a :: l => insertLe le a (insertionSortLe le l)

/-- The ORDER BY relation compiled by get_all_with_filters
(task_repository.py lines 288-315): `due_date` sorts with nulls last in
both directions (`nullslast`); `priority` sorts by the raw enum column,
a native PostgreSQL enum declared ('HIGH', 'MEDIUM', 'LOW'), which
ORDER BY compares by declaration order — HIGH before MEDIUM before LOW
ascending (the `priority_order` dict in the source is never applied, but
the column's declaration order already yields that ranking); `title`
sorts lexicographically, and anything else by `created_at`; a sort_order
other than "asc" means descending. -/
def orderLe (sort_by sort_order : String) (a b : Task) : Bool :=
  if sort_by == "due_date" then
    match a.due_date, b.due_date with
    | some x, some y =>
      if sort_order == "asc" then decide (x.key ≤ y.key) else decide (y.key ≤ x.key)
    | some _, none => true
    | none, some _ => false
    | none, none => true
  else if sort_by == "priority" then
    if sort_order == "asc" then
      decide (priorityEnumIndex a.priority ≤ priorityEnumIndex b.priority)
    else
      decide (priorityEnumIndex b.priority ≤ priorityEnumIndex a.priority)
  else if sort_by == "title" then
    if sort_order == "asc" then strLe a.title b.title
    else strLe b.title a.title
  else
    if sort_order == "asc" then decide (a.created_at.key ≤ b.created_at.key)
    else decide (b.created_at.key ≤ a.created_at.key)

/-- TaskRepository.get_all_with_filters (task_repository.py lines
195-324): filters the user's rows by the compiled predicate, takes the
total count of the filtered rows before pagination, sorts, and returns
the page `[offset, offset + limit)` together with that total. -/
def TaskRepository.get_all_with_filters (store : Store) (user_id : String)
    (search : Option String) (completed : Option Bool)
    (priority : Option (List TaskPriority)) (tags : Option (List String))
    (due_date_from due_date_to : Option DateTime) (is_overdue : Option Bool)
    (sort_by sort_order : String) (offset limit : Nat) (now : DateTime) :
    List Task × Nat :=
  (((insertionSortLe (orderLe sort_by sort_order)
      (store.filter (matchesFilters user_id search completed priority tags
        due_date_from due_date_to is_overdue now))).drop offset).take limit,
   (store.filter (matchesFilters user_id search completed priority tags
      due_date_from due_date_to is_overdue now)).length)

/-- Domain severity ranking of priorities (HIGH above MEDIUM above LOW),
used to state what the spec claims the priority sort follows. -/
def priorityDomainRank : TaskPriority → Nat
  | .high => 2
  | .medium => 1
  | .low => 0

/-- Concrete tasks of the three priorities, used as example inputs. -/
def tHigh : Task :=
  { id := 1, user_id := "u", title := "a", created_at := ⟨2026, 1, 1, 0⟩,
    priority := .high }

def tMedium : Task :=
  { id := 2, user_id := "u", title := "b", created_at := ⟨2026, 1, 1, 0⟩,
    priority := .medium }

def tLow : Task :=
  { id := 3, user_id := "u", title := "c", created_at := ⟨2026, 1, 1, 0⟩,
    priority := .low }

theorem daysInMonth_pos (y m : Nat) : 1 ≤ daysInMonth y m := by
  unfold daysInMonth
  split <;> [skip; split] <;> first | (split <;> norm_num) | norm_num

theorem daysInMonth_le_31 (y m : Nat) : daysInMonth y m ≤ 31 := by
  unfold daysInMonth
  split <;> [skip; split] <;> first | (split <;> norm_num) | norm_num

/-- C3: for every due date and the MONTHLY pattern,
`calculate_next_due_date` returns a datetime in the immediately following
calendar month (December rolls into January of the next year) whose
day-of-month is the source day-of-month clamped to the last valid day of
the target month, so it is a valid day of that month (never overflowing
into the month after), with the time-of-day preserved unchanged. -/
theorem c3_monthly_advances_with_clamping (dt : DateTime)
    (hm1 : 1 ≤ dt.month) (hm12 : dt.month ≤ 12) (hd1 : 1 ≤ dt.day) :
    ((TaskService.calculate_next_due_date dt .monthly).year,
      (TaskService.calculate_next_due_date dt .monthly).month) =
      (if dt.month = 12 then (dt.year + 1, 1) else (dt.year, dt.month + 1)) ∧
    (TaskService.calculate_next_due_date dt .monthly).day =
      min dt.day (daysInMonth (TaskService.calculate_next_due_date dt .monthly).year
        (TaskService.calculate_next_due_date dt .monthly).month) ∧
    1 ≤ (TaskService.calculate_next_due_date dt .monthly).day ∧
    (TaskService.calculate_next_due_date dt .monthly).day ≤
      daysInMonth (TaskService.calculate_next_due_date dt .monthly).year
        (TaskService.calculate_next_due_date dt .monthly).month ∧
    (TaskService.calculate_next_due_date dt .monthly).usec = dt.usec := by
  by_cases hc : dt.month = 12
  · have hgt : dt.month + 1 > 12 := by omega
    have e : TaskService.calculate_next_due_date dt .monthly =
        { year := dt.year + 1, month := 1,
          day := min dt.day (daysInMonth (dt.year + 1) 1), usec := dt.usec } := by
      show (if dt.month + 1 > 12 then _ else _) = _
      rw [if_pos hgt]
    rw [e, if_pos hc]
    exact ⟨rfl, rfl, le_min hd1 (daysInMonth_pos _ _), min_le_right _ _, rfl⟩
  · have hng : ¬ (dt.month + 1 > 12) := by omega
    have e : TaskService.calculate_next_due_date dt .monthly =
        { year := dt.year, month := dt.month + 1,
          day := min dt.day (daysInMonth dt.year (dt.month + 1)), usec := dt.usec } := by
      show (if dt.month + 1 > 12 then _ else _) = _
      rw [if_neg hng]
    rw [e, if_neg hc]
    exact ⟨rfl, rfl, le_min hd1 (daysInMonth_pos _ _), min_le_right _ _, rfl⟩

theorem c3_witness :
    (1 ≤ (⟨2026, 1, 31, 32400000000⟩ : DateTime).month ∧
      (⟨2026, 1, 31, 32400000000⟩ : DateTime).month ≤ 12 ∧
      1 ≤ (⟨2026, 1, 31, 32400000000⟩ : DateTime).day) ∧
    TaskService.calculate_next_due_date ⟨2026, 1, 31, 32400000000⟩ .monthly =
      ⟨2026, 2, 28, 32400000000⟩ ∧
    ((TaskService.calculate_next_due_date ⟨2026, 1, 31, 32400000000⟩ .monthly).year,
      (TaskService.calculate_next_due_date ⟨2026, 1, 31, 32400000000⟩ .monthly).month) =
      (if (⟨2026, 1, 31, 32400000000⟩ : DateTime).month = 12
        then ((⟨2026, 1, 31, 32400000000⟩ : DateTime).year + 1, 1)
        else ((⟨2026, 1, 31, 32400000000⟩ : DateTime).year,
          (⟨2026, 1, 31, 32400000000⟩ : DateTime).month + 1)) := by
  refine ⟨by decide, by decide, ?_⟩
  exact (c3_monthly_advances_with_clamping ⟨2026, 1, 31, 32400000000⟩
    (by decide) (by decide) (by decide)).1

/-- C4 (amended): `should_generate_next_instance` always returns true when
`recurrence_end_date` is null; when it is day `d`, it returns false exactly
when the candidate due date is strictly after 23:59:59.999999 (the last
representable microsecond, `datetime.max.time()`) of that calendar day, and
it returns true on that exact boundary instant. -/
theorem c4_end_date_boundary (task : Task) (c : DateTime) :
    (task.recurrence_end_date = none →
      TaskService.should_generate_next_instance task c = true) ∧
    (∀ d, task.recurrence_end_date = some d →
      ((TaskService.should_generate_next_instance task c = false ↔
          (endOfDay d).key < c.key) ∧
        TaskService.should_generate_next_instance task (endOfDay d) = true)) := by
  refine ⟨fun h => ?_, fun d hd => ⟨?_, ?_⟩⟩
  · simp [TaskService.should_generate_next_instance, h]
  · simp only [TaskService.should_generate_next_instance, hd,
      decide_eq_false_iff_not, not_le]
  · simp [TaskService.should_generate_next_instance, hd]

theorem c4_witness :
    ({ id := 1, user_id := "u", title := "walk", created_at := ⟨2026, 1, 1, 0⟩,
        recurrence_end_date := some ⟨2026, 1, 15⟩ : Task }).recurrence_end_date =
      some ⟨2026, 1, 15⟩ ∧
    (TaskService.should_generate_next_instance
        { id := 1, user_id := "u", title := "walk", created_at := ⟨2026, 1, 1, 0⟩,
          recurrence_end_date := some ⟨2026, 1, 15⟩ } ⟨2026, 2, 1, 0⟩ = false ↔
      (endOfDay ⟨2026, 1, 15⟩).key < (⟨2026, 2, 1, 0⟩ : DateTime).key) ∧
    TaskService.should_generate_next_instance
        { id := 1, user_id := "u", title := "walk", created_at := ⟨2026, 1, 1, 0⟩,
          recurrence_end_date := some ⟨2026, 1, 15⟩ } (endOfDay ⟨2026, 1, 15⟩) =
      true :=
  ⟨rfl,
    (c4_end_date_boundary
        { id := 1, user_id := "u", title := "walk", created_at := ⟨2026, 1, 1, 0⟩,
          recurrence_end_date := some ⟨2026, 1, 15⟩ } ⟨2026, 2, 1, 0⟩).2
      ⟨2026, 1, 15⟩ rfl⟩

/-- C4 counterexample: with `recurrence_end_date = 2026-01-15`, the candidate
2026-01-15 23:59:59.000001 is strictly after the instant 23:59:59 of that
day, yet `should_generate_next_instance` returns true (the code's inclusive
bound is `datetime.max.time()` = 23:59:59.999999, not 23:59:59), so the
claimed "false exactly when strictly after 23:59:59" is violated. -/
theorem c4_counterexample :
    (⟨2026, 1, 15, 86399000000⟩ : DateTime).key <
      (⟨2026, 1, 15, 86399000001⟩ : DateTime).key ∧
    TaskService.should_generate_next_instance
        { id := 1, user_id := "u", title := "walk", created_at := ⟨2026, 1, 1, 0⟩,
          recurrence_end_date := some ⟨2026, 1, 15⟩ }
        ⟨2026, 1, 15, 86399000001⟩ = true := by
  constructor
  · decide
  · decide

/-- C1: the source has no already-completed early return in
`complete_task` (task_service.py lines 282-343). On the already-completed
recurring task `recurTaskDone`, one more call restamps `updated_at` (so
the returned task differs from the stored one) and persists a further
occurrence; starting from the incomplete `recurTask`, two successive
calls leave three rows — two generated successors, not one. This refutes
the claimed idempotence at a concrete input. -/
theorem c1_code_bug_second_completion_spawns_again :
    recurTaskDone.completed = true ∧
    (TaskService.complete_task [recurTaskDone] "u" 1 ⟨2026, 1, 3, 0⟩).1.length = 2 ∧
    (TaskService.complete_task [recurTaskDone] "u" 1 ⟨2026, 1, 3, 0⟩).2.2.isSome = true ∧
    (TaskService.complete_task [recurTaskDone] "u" 1 ⟨2026, 1, 3, 0⟩).2.1 ≠
      some recurTaskDone ∧
    (TaskService.complete_task [recurTask] "u" 1 ⟨2026, 1, 2, 0⟩).1.length = 2 ∧
    (TaskService.complete_task
        (TaskService.complete_task [recurTask] "u" 1 ⟨2026, 1, 2, 0⟩).1
        "u" 1 ⟨2026, 1, 3, 0⟩).1.length = 3 := by
  decide

/-- C2: completing the recurring `recurTask` builds a draft carrying
`is_recurring`, `recurrence_pattern`, `recurrence_end_date` and
`parent_task_id`, but `TaskRepository.create` (task_repository.py lines
34-55) persists none of them: the stored successor has
`is_recurring = false`, `recurrence_pattern = none` and
`parent_task_id = none` (while `due_date`, `completed = false` and
`notification_sent = false` do hold), refuting the claimed field copy. -/
theorem c2_code_bug_successor_drops_recurrence_links :
    (TaskService.complete_task [recurTask] "u" 1 ⟨2026, 1, 2, 0⟩).2.2 =
      some { id := 2, user_id := "u", title := "standup",
             created_at := ⟨2026, 1, 2, 0⟩,
             due_date := some ⟨2026, 1, 11, 32400000000⟩ } ∧
    recurTask.is_recurring = true ∧
    recurTask.recurrence_pattern = some RecurrencePattern.daily ∧
    Option.map Task.is_recurring
      (TaskService.complete_task [recurTask] "u" 1 ⟨2026, 1, 2, 0⟩).2.2 =
      some false ∧
    Option.map Task.recurrence_pattern
      (TaskService.complete_task [recurTask] "u" 1 ⟨2026, 1, 2, 0⟩).2.2 =
      some none ∧
    Option.map Task.parent_task_id
      (TaskService.complete_task [recurTask] "u" 1 ⟨2026, 1, 2, 0⟩).2.2 =
      some none := by
  decide

/-- C8: when no row has the requested id with the requesting owner —
the id is absent or the task belongs to a different user — the complete
endpoint signals Not Found and the store is unchanged: no row is created
or mutated. -/
theorem c8_complete_signals_not_found (store : Store) (user_id : String)
    (task_id : Nat) (now : DateTime)
    (h : ∀ t ∈ store, ¬(t.id = task_id ∧ t.user_id = user_id)) :
    (ApiTasks.complete_task store user_id task_id now).2 =
      Except.error ApiError.notFound ∧
    (ApiTasks.complete_task store user_id task_id now).1 = store := by
  have hfind : TaskRepository.get_by_id store user_id task_id = none := by
    rw [TaskRepository.get_by_id, List.find?_eq_none]
    intro t ht
    simp only [Bool.and_eq_true, beq_iff_eq]
    exact h t ht
  have hsvc : TaskService.complete_task store user_id task_id now =
      (store, none, none) := by
    unfold TaskService.complete_task
    rw [hfind]
  constructor <;> simp [ApiTasks.complete_task, hsvc]

theorem c8_witness :
    (∀ t ∈ [recurTask], ¬(t.id = 2 ∧ t.user_id = "u")) ∧
    (ApiTasks.complete_task [recurTask] "u" 2 ⟨2026, 1, 2, 0⟩).2 =
      Except.error ApiError.notFound ∧
    (ApiTasks.complete_task [recurTask] "u" 2 ⟨2026, 1, 2, 0⟩).1 =
      [recurTask] :=
  ⟨by decide,
    c8_complete_signals_not_found [recurTask] "u" 2 ⟨2026, 1, 2, 0⟩ (by decide)⟩

/-- C10: for a task owned by the caller — including a recurring task with
a due date — toggle returns the row with only `completed` flipped and
`updated_at` stamped (every other field is carried over unchanged by the
record update), the store keeps the same number of rows (no successor
occurrence is ever created), and every row other than the toggled one is
still in the store unchanged. -/
theorem c10_toggle_only_flips_completed (store : Store) (user_id : String)
    (task_id : Nat) (now : DateTime) (t : Task)
    (h : TaskRepository.get_by_id store user_id task_id = some t) :
    (TaskRepository.toggle store user_id task_id now).2 =
      some { t with completed := !t.completed, updated_at := some now } ∧
    (TaskRepository.toggle store user_id task_id now).1.length = store.length ∧
    (∀ u ∈ store, ¬(u.id = task_id ∧ u.user_id = user_id) →
      u ∈ (TaskRepository.toggle store user_id task_id now).1) := by
  have e : TaskRepository.toggle store user_id task_id now =
      (replaceRow store user_id task_id
        { t with completed := !t.completed, updated_at := some now },
       some { t with completed := !t.completed, updated_at := some now }) := by
    unfold TaskRepository.toggle
    rw [h]
  refine ⟨by rw [e], ?_, ?_⟩
  · rw [e]
    simp [replaceRow]
  · intro u hu hne
    rw [e]
    simp only [replaceRow]
    refine List.mem_map.mpr ⟨u, hu, ?_⟩
    have hb : ¬((u.id == task_id && u.user_id == user_id) = true) := by
      simp only [Bool.and_eq_true, beq_iff_eq]
      exact hne
    simp [hb]

theorem c10_witness :
    TaskRepository.get_by_id [recurTask] "u" 1 = some recurTask ∧
    (TaskRepository.toggle [recurTask] "u" 1 ⟨2026, 1, 2, 0⟩).2 =
      some { recurTask with
              completed := !recurTask.completed,
              updated_at := some ⟨2026, 1, 2, 0⟩ } ∧
    (TaskRepository.toggle [recurTask] "u" 1 ⟨2026, 1, 2, 0⟩).1.length =
      [recurTask].length ∧
    (∀ u ∈ [recurTask], ¬(u.id = 1 ∧ u.user_id = "u") →
      u ∈ (TaskRepository.toggle [recurTask] "u" 1 ⟨2026, 1, 2, 0⟩).1) :=
  ⟨by decide,
    c10_toggle_only_flips_completed [recurTask] "u" 1 ⟨2026, 1, 2, 0⟩ recurTask
      (by decide)⟩

theorem length_insertLe {α : Type} (le : α → α → Bool) (a : α) (l : List α) :
    (insertLe le a l).length = l.length + 1 := by
  induction l with
  | nil => rfl
  | cons b t ih =>
    rw [insertLe]
    split
    · simp
    · simp [ih]

theorem length_insertionSortLe {α : Type} (le : α → α → Bool) (l : List α) :
    (insertionSortLe le l).length = l.length := by
  induction l with
  | nil => rfl
  | cons a t ih =>
    rw [insertionSortLe, length_insertLe, ih]
    rfl

theorem mem_insertLe {α : Type} (le : α → α → Bool) (a x : α) (l : List α) :
    x ∈ insertLe le a l ↔ x = a ∨ x ∈ l := by
  induction l with
  | nil => simp [insertLe]
  | cons b t ih =>
    rw [insertLe]
    split
    · simp [List.mem_cons]
    · simp only [List.mem_cons, ih]
      tauto

theorem pairwise_insertLe {α : Type} (le : α → α → Bool)
    (htot : ∀ a b, le a b = true ∨ le b a = true)
    (htr : ∀ a b c, le a b = true → le b c = true → le a c = true)
    (a : α) (l : List α) (h : l.Pairwise (fun x y => le x y = true)) :
    (insertLe le a l).Pairwise (fun x y => le x y = true) := by
  induction l with
  | nil => simp [insertLe]
  | cons b t ih =>
    rcases List.pairwise_cons.mp h with ⟨hbt, hpt⟩
    rw [insertLe]
    split
    · next hab =>
      refine List.pairwise_cons.mpr ⟨fun x hx => ?_, h⟩
      rcases List.mem_cons.mp hx with rfl | hxt
      · exact hab
      · exact htr a b x hab (hbt x hxt)
    · next hab =>
      have hba : le b a = true := by
        rcases htot a b with h1 | h1
        · exact absurd h1 hab
        · exact h1
      refine List.pairwise_cons.mpr ⟨fun x hx => ?_, ih hpt⟩
      rcases (mem_insertLe le a x t).mp hx with rfl | hxt
      · exact hba
      · exact hbt x hxt

theorem pairwise_insertionSortLe {α : Type} (le : α → α → Bool)
    (htot : ∀ a b, le a b = true ∨ le b a = true)
    (htr : ∀ a b c, le a b = true → le b c = true → le a c = true)
    (l : List α) :
    (insertionSortLe le l).Pairwise (fun x y => le x y = true) := by
  induction l with
  | nil => simp [insertionSortLe]
  | cons a t ih =>
    rw [insertionSortLe]
    exact pairwise_insertLe le htot htr a _ ih

theorem sum_page_lengths {α : Type} (limit : Nat) :
    ∀ (k : Nat) (l : List α), l.length ≤ k * limit →
      ((List.range k).map
        (fun i => ((l.drop (i * limit)).take limit).length)).sum = l.length := by
  intro k
  induction k with
  | zero =>
    intro l h
    simp only [Nat.zero_mul, Nat.le_zero] at h
    simp [h]
  | succ k ih =>
    intro l h
    rw [Nat.succ_mul] at h
    rw [List.range_succ_eq_map]
    simp only [List.map_cons, List.sum_cons, List.map_map]
    have h2 : (List.range k).map
        ((fun i => ((l.drop (i * limit)).take limit).length) ∘ Nat.succ) =
        (List.range k).map
          (fun i => (((l.drop limit).drop (i * limit)).take limit).length) := by
      refine List.map_congr_left (fun i _ => ?_)
      simp only [Function.comp_apply]
      rw [List.drop_drop, Nat.succ_mul]
      rw [Nat.add_comm (i * limit) limit]
    have hlen : (l.drop limit).length ≤ k * limit := by
      rw [List.length_drop]
      omega
    rw [h2, ih (l.drop limit) hlen]
    rw [Nat.zero_mul, List.drop_zero, List.length_take, List.length_drop]
    omega

/-- C5: for every owner, filter combination and page window, the total
returned by `get_all_with_filters` equals the number of store rows
matching exactly the same filter predicates (owner scoping included)
before offset and limit, and enumerating all pages under a fixed filter
set yields exactly `total` rows: with `k` pages of size `limit` covering
the matching rows, the page lengths sum to the returned total. -/
theorem c5_total_consistent_with_pages (store : Store) (user_id : String)
    (search : Option String) (completed : Option Bool)
    (priority : Option (List TaskPriority)) (tags : Option (List String))
    (due_date_from due_date_to : Option DateTime) (is_overdue : Option Bool)
    (sort_by sort_order : String) (limit k : Nat) (now : DateTime) :
    (∀ offset,
      (TaskRepository.get_all_with_filters store user_id search completed
        priority tags due_date_from due_date_to is_overdue sort_by sort_order
        offset limit now).2 =
      (store.filter (matchesFilters user_id search completed priority tags
        due_date_from due_date_to is_overdue now)).length) ∧
    ((store.filter (matchesFilters user_id search completed priority tags
        due_date_from due_date_to is_overdue now)).length ≤ k * limit →
      ((List.range k).map (fun i =>
        (TaskRepository.get_all_with_filters store user_id search completed
          priority tags due_date_from due_date_to is_overdue sort_by sort_order
          (i * limit) limit now).1.length)).sum =
      (TaskRepository.get_all_with_filters store user_id search completed
        priority tags due_date_from due_date_to is_overdue sort_by sort_order
        0 limit now).2) := by
  constructor
  · intro _
    rfl
  · intro h
    have hlen : (insertionSortLe (orderLe sort_by sort_order)
        (store.filter (matchesFilters user_id search completed priority tags
          due_date_from due_date_to is_overdue now))).length =
        (store.filter (matchesFilters user_id search completed priority tags
          due_date_from due_date_to is_overdue now)).length :=
      length_insertionSortLe _ _
    have hsum := sum_page_lengths limit k
      (insertionSortLe (orderLe sort_by sort_order)
        (store.filter (matchesFilters user_id search completed priority tags
          due_date_from due_date_to is_overdue now)))
      (by rw [hlen]; exact h)
    rw [hlen] at hsum
    exact hsum

theorem c5_witness :
    (([tHigh, tMedium, tLow].filter (matchesFilters "u" none none none none
        none none none ⟨2026, 1, 2, 0⟩)).length ≤ 2 * 2) ∧
    (TaskRepository.get_all_with_filters [tHigh, tMedium, tLow] "u" none none
      none none none none none "created_at" "desc" 5 2 ⟨2026, 1, 2, 0⟩).2 =
      ([tHigh, tMedium, tLow].filter (matchesFilters "u" none none none none
        none none none ⟨2026, 1, 2, 0⟩)).length ∧
    ((List.range 2).map (fun i =>
      (TaskRepository.get_all_with_filters [tHigh, tMedium, tLow] "u" none none
        none none none none none "created_at" "desc" (i * 2) 2
        ⟨2026, 1, 2, 0⟩).1.length)).sum =
      (TaskRepository.get_all_with_filters [tHigh, tMedium, tLow] "u" none none
        none none none none none "created_at" "desc" 0 2 ⟨2026, 1, 2, 0⟩).2 :=
  ⟨by decide,
    (c5_total_consistent_with_pages [tHigh, tMedium, tLow] "u" none none none
      none none none none "created_at" "desc" 2 2 ⟨2026, 1, 2, 0⟩).1 5,
    (c5_total_consistent_with_pages [tHigh, tMedium, tLow] "u" none none none
      none none none none "created_at" "desc" 2 2 ⟨2026, 1, 2, 0⟩).2
      (by decide)⟩

theorem orderLe_due_date_eq (sort_order : String) (a b : Task) :
    orderLe "due_date" sort_order a b =
      (match a.due_date, b.due_date with
      | some x, some y =>
        if sort_order == "asc" then decide (x.key ≤ y.key)
        else decide (y.key ≤ x.key)
      | some _, none => true
      | none, some _ => false
      | none, none => true) := rfl

theorem orderLe_due_date_total (sort_order : String) (a b : Task) :
    orderLe "due_date" sort_order a b = true ∨
      orderLe "due_date" sort_order b a = true := by
  rw [orderLe_due_date_eq, orderLe_due_date_eq]
  cases hda : a.due_date <;> cases hdb : b.due_date
  · simp
  · simp
  · simp
  · cases hso : (sort_order == "asc") <;> simp <;> omega

theorem orderLe_due_date_trans (sort_order : String) (a b c : Task) :
    orderLe "due_date" sort_order a b = true →
      orderLe "due_date" sort_order b c = true →
      orderLe "due_date" sort_order a c = true := by
  rw [orderLe_due_date_eq, orderLe_due_date_eq, orderLe_due_date_eq]
  cases hda : a.due_date <;> cases hdb : b.due_date <;> cases hdc : c.due_date <;>
    by_cases hso : sort_order = "asc" <;>
    simp [hso] <;>
    omega

/-- C9: for every query sorted by due_date, in both directions, every
task with a null due date appears after every task with a non-null due
date in the returned page: the returned list is pairwise ordered so that
once a null-due-date task occurs, every later task also has a null due
date (`nullslast` in both branches of the source). -/
theorem c9_due_date_sort_nulls_last (store : Store) (user_id : String)
    (search : Option String) (completed : Option Bool)
    (priority : Option (List TaskPriority)) (tags : Option (List String))
    (due_date_from due_date_to : Option DateTime) (is_overdue : Option Bool)
    (sort_order : String) (offset limit : Nat) (now : DateTime) :
    ((TaskRepository.get_all_with_filters store user_id search completed
      priority tags due_date_from due_date_to is_overdue "due_date" sort_order
      offset limit now).1).Pairwise
      (fun a b => a.due_date = none → b.due_date = none) := by
  have hp := pairwise_insertionSortLe (orderLe "due_date" sort_order)
    (orderLe_due_date_total sort_order) (orderLe_due_date_trans sort_order)
    (store.filter (matchesFilters user_id search completed priority tags
      due_date_from due_date_to is_overdue now))
  have hsub : List.Sublist
      (((insertionSortLe (orderLe "due_date" sort_order)
        (store.filter (matchesFilters user_id search completed priority tags
          due_date_from due_date_to is_overdue now))).drop offset).take limit)
      (insertionSortLe (orderLe "due_date" sort_order)
        (store.filter (matchesFilters user_id search completed priority tags
          due_date_from due_date_to is_overdue now))) :=
    (List.take_sublist _ _).trans (List.drop_sublist _ _)
  refine (hp.sublist hsub).imp ?_
  intro a b hab hnone
  cases hdb : b.due_date with
  | none => rfl
  | some y =>
    rw [orderLe_due_date_eq, hnone, hdb] at hab
    simp at hab

theorem decideLe_total {α : Type} (f : α → Nat) (a b : α) :
    decide (f a ≤ f b) = true ∨ decide (f b ≤ f a) = true := by
  simp only [decide_eq_true_eq]
  omega

theorem decideLe_trans {α : Type} (f : α → Nat) (a b c : α) :
    decide (f a ≤ f b) = true → decide (f b ≤ f c) = true →
      decide (f a ≤ f c) = true := by
  simp only [decide_eq_true_eq]
  omega

theorem orderLe_priority_asc_eq (a b : Task) :
    orderLe "priority" "asc" a b =
      decide (priorityEnumIndex a.priority ≤ priorityEnumIndex b.priority) := rfl

theorem orderLe_priority_desc_eq (a b : Task) :
    orderLe "priority" "desc" a b =
      decide (priorityEnumIndex b.priority ≤ priorityEnumIndex a.priority) := rfl

theorem rank_antitone_in_enum_index (p q : TaskPriority) :
    priorityEnumIndex p ≤ priorityEnumIndex q →
      priorityDomainRank q ≤ priorityDomainRank p := by
  cases p <;> cases q <;> decide

/-- C6: with sort_by = priority the ordering follows the domain ranking
HIGH > MEDIUM > LOW, not the alphabetical order of the priority names:
the column is a native PostgreSQL enum declared ('HIGH', 'MEDIUM', 'LOW')
and ORDER BY compares native enum values by declaration order. Ascending
is one fixed mapping of that ranking — the domain rank never increases
along the returned page — and descending is its exact reverse (the desc
comparator is the asc comparator with its arguments swapped). On the
three-priority example, ascending yields HIGH, MEDIUM, LOW rather than
the alphabetical HIGH, LOW, MEDIUM. -/
theorem c6_priority_sort_follows_domain_ranking (store : Store)
    (user_id : String) (search : Option String) (completed : Option Bool)
    (priority : Option (List TaskPriority)) (tags : Option (List String))
    (due_date_from due_date_to : Option DateTime) (is_overdue : Option Bool)
    (offset limit : Nat) (now : DateTime) :
    ((TaskRepository.get_all_with_filters store user_id search completed
      priority tags due_date_from due_date_to is_overdue "priority" "asc"
      offset limit now).1).Pairwise
      (fun a b => priorityDomainRank b.priority ≤ priorityDomainRank a.priority) ∧
    ((TaskRepository.get_all_with_filters store user_id search completed
      priority tags due_date_from due_date_to is_overdue "priority" "desc"
      offset limit now).1).Pairwise
      (fun a b => priorityDomainRank a.priority ≤ priorityDomainRank b.priority) ∧
    (∀ a b : Task, orderLe "priority" "desc" a b = orderLe "priority" "asc" b a) ∧
    (TaskRepository.get_all_with_filters [tMedium, tHigh, tLow] "u" none none
      none none none none none "priority" "asc" 0 100 ⟨2026, 1, 2, 0⟩).1.map
      Task.priority = [.high, .medium, .low] := by
  refine ⟨?_, ?_, fun a b => rfl, by decide⟩
  · have hp := pairwise_insertionSortLe (orderLe "priority" "asc")
      (fun a b => by
        rw [orderLe_priority_asc_eq, orderLe_priority_asc_eq]
        exact decideLe_total (fun t => priorityEnumIndex t.priority) a b)
      (fun a b c => by
        rw [orderLe_priority_asc_eq, orderLe_priority_asc_eq,
          orderLe_priority_asc_eq]
        exact decideLe_trans (fun t => priorityEnumIndex t.priority) a b c)
      (store.filter (matchesFilters user_id search completed priority tags
        due_date_from due_date_to is_overdue now))
    have hsub : List.Sublist
        (((insertionSortLe (orderLe "priority" "asc")
          (store.filter (matchesFilters user_id search completed priority tags
            due_date_from due_date_to is_overdue now))).drop offset).take limit)
        (insertionSortLe (orderLe "priority" "asc")
          (store.filter (matchesFilters user_id search completed priority tags
            due_date_from due_date_to is_overdue now))) :=
      (List.take_sublist _ _).trans (List.drop_sublist _ _)
    refine (hp.sublist hsub).imp ?_
    intro a b hab
    rw [orderLe_priority_asc_eq] at hab
    exact rank_antitone_in_enum_index _ _ (of_decide_eq_true hab)
  · have hp := pairwise_insertionSortLe (orderLe "priority" "desc")
      (fun a b => by
        rw [orderLe_priority_desc_eq, orderLe_priority_desc_eq]
        exact decideLe_total (fun t => priorityEnumIndex t.priority) b a)
      (fun a b c => by
        rw [orderLe_priority_desc_eq, orderLe_priority_desc_eq,
          orderLe_priority_desc_eq]
        intro h1 h2
        exact decideLe_trans (fun t => priorityEnumIndex t.priority) c b a h2 h1)
      (store.filter (matchesFilters user_id search completed priority tags
        due_date_from due_date_to is_overdue now))
    have hsub : List.Sublist
        (((insertionSortLe (orderLe "priority" "desc")
          (store.filter (matchesFilters user_id search completed priority tags
            due_date_from due_date_to is_overdue now))).drop offset).take limit)
        (insertionSortLe (orderLe "priority" "desc")
          (store.filter (matchesFilters user_id search completed priority tags
            due_date_from due_date_to is_overdue now))) :=
      (List.take_sublist _ _).trans (List.drop_sublist _ _)
    refine (hp.sublist hsub).imp ?_
    intro a b hab
    rw [orderLe_priority_desc_eq] at hab
    exact rank_antitone_in_enum_index _ _ (of_decide_eq_true hab)

theorem update_found_eq (store : Store) (user_id : String) (task_id : Nat)
    (patch : TaskUpdate) (now : DateTime) (task : Task)
    (h : TaskRepository.get_by_id store user_id task_id = some task) :
    ∃ t', TaskRepository.update store user_id task_id patch now =
        (replaceRow store user_id task_id t', some t') ∧
      t'.is_recurring = task.is_recurring ∧
      t'.recurrence_pattern = task.recurrence_pattern ∧
      (t'.due_date = task.due_date ∨ t'.due_date.isSome = true) := by
  unfold TaskRepository.update
  rw [h]
  rcases patch with ⟨pt, pd, pp, ptg, pdd, pir, prp, pred⟩
  cases pt <;> cases pd <;> cases pp <;> cases ptg <;> cases pdd <;>
    (refine ⟨_, rfl, ?_, ?_, ?_⟩ <;>
      try (simp only [])) <;>
    first
      | rfl
      | (split <;> rfl)
      | (left ; trivial)
      | (left ; split <;> rfl)
      | (right ; rfl)
      | (right ; split <;> rfl)

/-- C7: a valid creation draft that is recurring necessarily carries a
due date and a recurrence pattern (the schema validator rejects it
otherwise), and the store invariant — every stored task with
`is_recurring = true` has a non-null `due_date` and a non-null
`recurrence_pattern` — is preserved by both the create and the partial
update operation: an update never touches the recurrence fields and
never clears a due date, so no update can break the invariant either. -/
theorem c7_recurring_invariant_enforced (store : Store) (user_id : String)
    (d : TaskCreate) (task_id : Nat) (patch : TaskUpdate) (now now' : DateTime)
    (hstore : ∀ t ∈ store, recurrenceInvariant t) :
    (d.validate_recurrence = true → d.is_recurring = true →
      d.due_date ≠ none ∧ d.recurrence_pattern ≠ none) ∧
    (∀ t ∈ (TaskRepository.create store user_id d now).1,
      recurrenceInvariant t) ∧
    (∀ t ∈ (TaskRepository.update store user_id task_id patch now').1,
      recurrenceInvariant t) := by
  refine ⟨?_, ?_, ?_⟩
  · intro hv hr
    rw [TaskCreate.validate_recurrence, hr] at hv
    simp only [Bool.not_true, Bool.false_or, Bool.and_eq_true] at hv
    exact ⟨Option.isSome_iff_ne_none.mp hv.2, Option.isSome_iff_ne_none.mp hv.1⟩
  · intro t ht
    rcases List.mem_append.mp ht with hmem | hnew
    · exact hstore t hmem
    · intro hr
      exfalso
      rcases List.mem_singleton.mp hnew with rfl
      exact Bool.false_ne_true hr
  · cases hfind : TaskRepository.get_by_id store user_id task_id with
    | none =>
      have e : TaskRepository.update store user_id task_id patch now' =
          (store, none) := by
        unfold TaskRepository.update
        rw [hfind]
      rw [e]
      exact hstore
    | some task =>
      have htask : recurrenceInvariant task :=
        hstore task (List.mem_of_find?_eq_some hfind)
      rcases update_found_eq store user_id task_id patch now' task hfind with
        ⟨t', heq, hrec, hpat, hdue⟩
      rw [heq]
      intro t ht
      rcases List.mem_map.mp ht with ⟨u, hu, hfu⟩
      by_cases hcond : (u.id == task_id && u.user_id == user_id) = true
      · rw [if_pos hcond] at hfu
        subst hfu
        intro hr
        have hinv := htask (hrec ▸ hr)
        refine ⟨?_, hpat ▸ hinv.2⟩
        rcases hdue with hsame | hsome
        · exact hsame ▸ hinv.1
        · exact Option.isSome_iff_ne_none.mp hsome
      · rw [if_neg hcond] at hfu
        subst hfu
        exact hstore u hu

theorem c7_witness :
    (∀ t ∈ ([] : Store), recurrenceInvariant t) ∧
    (TaskCreate.validate_recurrence
        { title := "gym", due_date := some ⟨2026, 1, 5, 0⟩,
          is_recurring := true, recurrence_pattern := some .weekly } = true →
      ({ title := "gym", due_date := some ⟨2026, 1, 5, 0⟩,
          is_recurring := true,
          recurrence_pattern := some .weekly : TaskCreate }).is_recurring = true →
      ({ title := "gym", due_date := some ⟨2026, 1, 5, 0⟩,
          is_recurring := true,
          recurrence_pattern := some .weekly : TaskCreate }).due_date ≠ none ∧
      ({ title := "gym", due_date := some ⟨2026, 1, 5, 0⟩,
          is_recurring := true,
          recurrence_pattern := some .weekly : TaskCreate }).recurrence_pattern ≠
        none) ∧
    (∀ t ∈ (TaskRepository.create [] "u"
        { title := "gym", due_date := some ⟨2026, 1, 5, 0⟩,
          is_recurring := true, recurrence_pattern := some .weekly }
        ⟨2026, 1, 2, 0⟩).1, recurrenceInvariant t) ∧
    (∀ t ∈ (TaskRepository.update [] "u" 1 { title := some "new" }
        ⟨2026, 1, 3, 0⟩).1, recurrenceInvariant t) :=
  ⟨by simp,
    (c7_recurring_invariant_enforced [] "u"
      { title := "gym", due_date := some ⟨2026, 1, 5, 0⟩,
        is_recurring := true, recurrence_pattern := some .weekly }
      1 { title := some "new" } ⟨2026, 1, 2, 0⟩ ⟨2026, 1, 3, 0⟩ (by simp)).1,
    (c7_recurring_invariant_enforced [] "u"
      { title := "gym", due_date := some ⟨2026, 1, 5, 0⟩,
        is_recurring := true, recurrence_pattern := some .weekly }
      1 { title := some "new" } ⟨2026, 1, 2, 0⟩ ⟨2026, 1, 3, 0⟩ (by simp)).2.1,
    (c7_recurring_invariant_enforced [] "u"
      { title := "gym", due_date := some ⟨2026, 1, 5, 0⟩,
        is_recurring := true, recurrence_pattern := some .weekly }
      1 { title := some "new" } ⟨2026, 1, 2, 0⟩ ⟨2026, 1, 3, 0⟩ (by simp)).2.2⟩

end TodoApp
